import Mathlib

/-!
Shallow embedding of `pkg/controller/controller.go` from the
`kubernetes-namespaces-operator` repository.

The program is a single-file Kubernetes controller: `NewNamespaceController`
builds a shared index informer over namespaces (list + watch, 3-minute
resync) and registers `createCustomRules` as the add handler; `Run` spawns
the informer loop and blocks on the stop channel; `createCustomRules`
type-asserts its payload to `*v1.Namespace`, tests the name against the
pattern `kube-.*` with `regexp.MatchString`, and for non-matching names
issues one LimitRange creation and one ResourceQuota creation, logging each
outcome and never returning an error.

The cluster is external, so the handler is embedded as a function of the two
creation-call outcomes (an oracle) producing the list of outbound calls and
the list of log lines.  The informer construction is embedded as a
configuration record, and `Run` as the sequential trace of effects it
performs on the calling goroutine.
-/

/-- Go `metav1.TypeMeta`: API kind and version stamped on a created object. -/
structure TypeMeta where
  kind : String
  apiVersion : String
deriving DecidableEq

/-- Go `metav1.ObjectMeta`, restricted to the fields this program writes
(`Name`, `Namespace`) plus fields it receives on watched objects but never
reads (`Labels`, `Annotations`), kept so that name-only dependence is a real
statement.  `namespace` is a Lean keyword, hence the primed field name. -/
structure ObjectMeta where
  name : String
  namespace' : String
  labels : List (String × String)
  annotations : List (String × String)
deriving DecidableEq

/-- Go `v1.NamespaceStatus`: present on watched namespaces, never read by the
handler. -/
structure NamespaceStatus where
  phase : String
deriving DecidableEq

/-- Go `v1.Namespace`: the watched object (read-only input). -/
structure Namespace where
  metadata : ObjectMeta
  status : NamespaceStatus
deriving DecidableEq

/-- Go field promotion: `namespaceObj.Name` reads the embedded
`ObjectMeta.Name`. -/
def Namespace.Name (n : Namespace) : String :=
  n.metadata.name

/-- Format argument of `resource.NewQuantity`; the source only ever passes
`resource.BinarySI`. -/
inductive QuantityFormat where
  | BinarySI
  | DecimalSI
deriving DecidableEq

/-- Go `resource.Quantity` as produced by `resource.NewQuantity`: an int64
value together with its format. -/
structure Quantity where
  value : Int
  format : QuantityFormat
deriving DecidableEq

/-- Go `resource.NewQuantity`. -/
def NewQuantity (value : Int) (format : QuantityFormat) : Quantity :=
  { value := value, format := format }

/-- Go `v1.ResourceList` (a map from resource name to quantity), embedded as
the association list in the order the Go composite literal writes it. -/
abbrev ResourceList := List (String × Quantity)

/-- Go `v1.LimitTypeContainer`. -/
def LimitTypeContainer : String := "Container"

/-- Go `v1.LimitRangeItem`: the fields the source populates. -/
structure LimitRangeItem where
  type : String
  default : ResourceList
  defaultRequest : ResourceList
deriving DecidableEq

/-- Go `v1.LimitRangeSpec`. -/
structure LimitRangeSpec where
  limits : List LimitRangeItem
deriving DecidableEq

/-- Go `v1.LimitRange`: the request body of the first creation call. -/
structure LimitRange where
  typeMeta : TypeMeta
  metadata : ObjectMeta
  spec : LimitRangeSpec
deriving DecidableEq

/-- Go `v1.ResourceQuotaSpec`. -/
structure ResourceQuotaSpec where
  hard : ResourceList
deriving DecidableEq

/-- Go `v1.ResourceQuota`: the request body of the second creation call. -/
structure ResourceQuota where
  typeMeta : TypeMeta
  metadata : ObjectMeta
  spec : ResourceQuotaSpec
deriving DecidableEq

/-- A value delivered to the handler through its `obj interface\x7b\x7d`
parameter: either a `*v1.Namespace` or some other runtime object (any other
dynamic type; the payload string stands for its contents). -/
inductive RuntimeObj where
  | namespaceObj (ns : Namespace)
  | otherObj (description : String)
deriving DecidableEq

/-- Whether `needle` occurs as a contiguous sublist of the second list. -/
def hasSub (needle : List Char) : List Char → Bool
  | [] => needle.isEmpty
  | c :: rest => needle.isPrefixOf (c :: rest) || hasSub needle rest

/-- Go `regexp.MatchString "kube-.*" s` from the handler (the boolean result;
the error result is discarded by the source and is nil for this valid
pattern).  Go regexp matching is unanchored: the pattern matches somewhere in
`s` iff the literal `kube-` occurs as a substring of `s`, because the `.*`
tail may match the empty string.  So the result is exactly substring
containment of `"kube-"`. -/
def MatchStringKubePattern (s : String) : Bool :=
  hasSub "kube-".data s.data

/-- An outbound creation call: the namespace argument passed to
`LimitRanges(ns).Create` or `ResourceQuotas(ns).Create`, plus the request
body. -/
inductive ApiCall where
  | createLimitRange (ns : String) (body : LimitRange)
  | createResourceQuota (ns : String) (body : ResourceQuota)
deriving DecidableEq

/-- Outcome of each creation call as returned by the external cluster:
`none` is success, `some e` an error whose `Error()` text is `e`. -/
structure ClientOutcomes where
  limitRangeErr : Option String
  resourceQuotaErr : Option String
deriving DecidableEq

/-- Observable effects of one handler invocation: the creation calls issued,
in order, and the `log.Println` lines emitted, in order. -/
structure HandlerOutput where
  calls : List ApiCall
  logs : List String
deriving DecidableEq

/-- The LimitRange request body (the Go local `limit` of
`createCustomRules`, with `limitRangeName` substituted): kind `LimitRange`,
name `lr-auto-<namespaceName>`, scoped to `namespaceName`, one
container-type entry with default and default-request memory of
`128*1024*1024` bytes, BinarySI. -/
def limit (namespaceName : String) : LimitRange :=
  { typeMeta := { kind := "LimitRange", apiVersion := "v1" },
    metadata := { name := "lr-auto-" ++ namespaceName,
                  namespace' := namespaceName,
                  labels := [], annotations := [] },
    spec :=
      { limits :=
          [{ type := LimitTypeContainer,
             default := [("memory",
               NewQuantity (128 * 1024 * 1024) QuantityFormat.BinarySI)],
             defaultRequest := [("memory",
               NewQuantity (128 * 1024 * 1024) QuantityFormat.BinarySI)] }] } }

/-- The ResourceQuota request body (the Go local `quota` of
`createCustomRules`, with `resourceQuotaName` substituted): kind
`ResourceQuota`, name `rq-auto-<namespaceName>`, scoped to `namespaceName`,
hard limits `services.loadbalancers = 0` and `services.nodeports = 0`. -/
def quota (namespaceName : String) : ResourceQuota :=
  { typeMeta := { kind := "ResourceQuota", apiVersion := "v1" },
    metadata := { name := "rq-auto-" ++ namespaceName,
                  namespace' := namespaceName,
                  labels := [], annotations := [] },
    spec := { hard :=
      [("services.loadbalancers", NewQuantity 0 QuantityFormat.BinarySI),
       ("services.nodeports", NewQuantity 0 QuantityFormat.BinarySI)] } }

/-- The log line of the LimitRange submission, by outcome (the two branches
of the first `if err != nil` of `createCustomRules`). -/
def lrLog (outcome : Option String) (namespaceName : String) : String :=
  match outcome with
  | some e => "Failed to create limitRange: " ++ e
  | none => "limitRange for Namespace: " ++ namespaceName ++ " created"

/-- The log line of the ResourceQuota submission, by outcome (the two
branches of the second `if err != nil` of `createCustomRules`). -/
def rqLog (outcome : Option String) (namespaceName : String) : String :=
  match outcome with
  | some e => "Failed to create ResourceQuotas: " ++ e
  | none => "ResourceQuotas for Namespace: " ++ namespaceName ++ " created"

/-- Go `createCustomRules`, the add-event handler.  `none` models the panic
of the unchecked type assertion `obj.(*v1.Namespace)` on a non-namespace
value; `some` carries the calls and log lines of a normal return.  The body
mirrors the source statement by statement, with the request-body and
log-line locals factored into the named definitions above. -/
def createCustomRules (client : ClientOutcomes) (obj : RuntimeObj) :
    Option HandlerOutput :=
  match obj with
  | RuntimeObj.otherObj _ => none
  | RuntimeObj.namespaceObj namespaceObj =>
    let namespaceName := namespaceObj.Name
    let adminNamespaces := MatchStringKubePattern namespaceName
    if adminNamespaces ≠ true then
      some { calls := [ApiCall.createLimitRange namespaceName (limit namespaceName),
                       ApiCall.createResourceQuota namespaceName (quota namespaceName)],
             logs := [lrLog client.limitRangeErr namespaceName,
                      rqLog client.resourceQuotaErr namespaceName] }
    else
      some { calls := [], logs := ["Skip admin namespace: " ++ namespaceName] }

/-- What `cache.NewSharedIndexInformer` is constructed with in
`NewNamespaceController`: the list/watch pair, the object type, the resync
period, and the indexers map's keys. -/
structure SharedIndexInformerConfig where
  hasListFunc : Bool
  hasWatchFunc : Bool
  objType : String
  resyncPeriodSeconds : Nat
  indexers : List String
deriving DecidableEq

/-- The one concrete handler function of this program, for recording which
callback a registration installs. -/
inductive EventHandlerRef where
  | createCustomRulesHandler
deriving DecidableEq

/-- Go `cache.ResourceEventHandlerFuncs`: which of the three callbacks a call
to `AddEventHandler` sets. -/
structure ResourceEventHandlerFuncs where
  addFunc : Option EventHandlerRef
  updateFunc : Option EventHandlerRef
  deleteFunc : Option EventHandlerRef
deriving DecidableEq

/-- The observable construction result of `NewNamespaceController`: the
informer configuration and the list of `AddEventHandler` registrations, in
call order. -/
structure NamespaceControllerConfig where
  informer : SharedIndexInformerConfig
  eventHandlers : List ResourceEventHandlerFuncs
deriving DecidableEq

/-- Go `NewNamespaceController`: builds the informer over namespaces with
both `ListFunc` and `WatchFunc` set, a `3*time.Minute` resync period and the
namespace indexer, and makes exactly one `AddEventHandler` call whose
`ResourceEventHandlerFuncs` literal sets only `AddFunc`, to
`createCustomRules`. -/
def NewNamespaceController : NamespaceControllerConfig :=
  { informer := { hasListFunc := true, hasWatchFunc := true,
                  objType := "Namespace",
                  resyncPeriodSeconds := 3 * 60,
                  indexers := ["namespace"] },
    eventHandlers := [{ addFunc := some EventHandlerRef.createCustomRulesHandler,
                        updateFunc := none,
                        deleteFunc := none }] }

/-- One effect of `Run` as seen from the calling goroutine. -/
inductive RunAction where
  | wgAdd (delta : Nat)
  | goInformerRun
  | recvStopCh
  | wgDone
deriving DecidableEq

/-- The sequence of effects Go `Run` performs, in order: `wg.Add(1)`, the
`go c.namespaceInformer.Run(stopCh)` statement spawning the informer loop,
the blocking receive `<-stopCh`, and then — because `defer wg.Done()` runs
when the function returns, which is right after the receive completes — the
`wg.Done()` call. -/
def RunTrace : List RunAction :=
  [RunAction.wgAdd 1, RunAction.goInformerRun, RunAction.recvStopCh,
   RunAction.wgDone]

/-- Sample non-administrative namespace used by closed instances. -/
def nsTeamA : Namespace :=
  { metadata := { name := "team-a", namespace' := "",
                  labels := [], annotations := [] },
    status := { phase := "Active" } }

/-- The same name as `nsTeamA` with different labels and status, for the
name-only-dependence instance. -/
def nsTeamALabeled : Namespace :=
  { metadata := { name := "team-a", namespace' := "",
                  labels := [("env", "prod")], annotations := [("a", "b")] },
    status := { phase := "Terminating" } }

/-- Sample administrative namespace. -/
def nsKubeSystem : Namespace :=
  { metadata := { name := "kube-system", namespace' := "",
                  labels := [], annotations := [] },
    status := { phase := "Active" } }

theorem isPrefixOf_self_append (l post : List Char) :
    l.isPrefixOf (l ++ post) = true := by
  induction l with
  | nil => simp [List.isPrefixOf]
  | cons a as ih => simp [List.isPrefixOf, ih]

theorem hasSub_nil_needle (hay : List Char) : hasSub [] hay = true := by
  cases hay with
  | nil => rfl
  | cons c rest => simp [hasSub, List.isPrefixOf]

theorem hasSub_append_self (needle pre post : List Char) :
    hasSub needle (pre ++ (needle ++ post)) = true := by
  induction pre with
  | nil =>
    cases needle with
    | nil => simpa using hasSub_nil_needle post
    | cons a as => simp [hasSub, isPrefixOf_self_append]
  | cons c pre ih => simp [hasSub, ih]

theorem hasSub_suffix (needle pre : List Char) :
    hasSub needle (pre ++ needle) = true := by
  simpa using hasSub_append_self needle pre []

/-- C2: for every namespace whose name matches the pattern `kube-.*` under
the handler's own match (Go unanchored semantics: `kube-` occurs as a
substring, which in particular covers every name with the `kube-` prefix),
the handler attempts zero creation calls and emits exactly one skip log
line. -/
theorem admin_namespace_skipped (client : ClientOutcomes) (ns : Namespace)
    (h : MatchStringKubePattern ns.Name = true) :
    createCustomRules client (RuntimeObj.namespaceObj ns) =
      some { calls := [], logs := ["Skip admin namespace: " ++ ns.Name] } := by
  simp [createCustomRules, h]

/-- C2 witness: the `kube-system` scenario. -/
theorem admin_namespace_skipped_witness :
    createCustomRules { limitRangeErr := none, resourceQuotaErr := none }
        (RuntimeObj.namespaceObj nsKubeSystem) =
      some { calls := [], logs := ["Skip admin namespace: kube-system"] } :=
  admin_namespace_skipped _ _ (by decide)

/-- C7: `NewNamespaceController` builds the informer with both a list
function and a watch function, a resync period of 3 minutes (180 seconds),
and registers exactly one handler set, whose only callback is the add
handler `createCustomRules` (no update handler, no delete handler). -/
theorem informer_config_resync_and_single_add_handler :
    NewNamespaceController.informer.hasListFunc = true ∧
    NewNamespaceController.informer.hasWatchFunc = true ∧
    NewNamespaceController.informer.resyncPeriodSeconds = 180 ∧
    NewNamespaceController.eventHandlers =
      [{ addFunc := some EventHandlerRef.createCustomRulesHandler,
         updateFunc := none, deleteFunc := none }] := by
  decide

/-- C8: `Run` spawns the informer loop exactly once; after the spawn it does
nothing but block on the stop channel, and once the receive completes the
deferred `wg.Done` fires, exactly once, as the very last action. -/
theorem run_blocks_then_signals_done :
    RunTrace.count RunAction.goInformerRun = 1 ∧
    RunTrace.count RunAction.wgDone = 1 ∧
    RunTrace.drop 2 = [RunAction.recvStopCh, RunAction.wgDone] ∧
    RunTrace.getLast? = some RunAction.wgDone := by
  decide

/-- C9: the handler opens with the unchecked type assertion
`obj.(*v1.Namespace)`: on any payload that is not a namespace it panics
(embedded as `none`), and on every namespace payload it returns normally. -/
theorem type_assertion_totality (client : ClientOutcomes) (obj : RuntimeObj) :
    ((∀ ns, obj ≠ RuntimeObj.namespaceObj ns) →
        createCustomRules client obj = none) ∧
    (∀ ns, (createCustomRules client (RuntimeObj.namespaceObj ns)).isSome = true) := by
  constructor
  · intro h
    cases obj with
    | namespaceObj ns => exact absurd rfl (h ns)
    | otherObj d => rfl
  · intro ns
    cases hM : MatchStringKubePattern ns.Name <;> simp [createCustomRules, hM]

/-- C9 witness: a non-namespace payload panics; a namespace payload does
not. -/
theorem type_assertion_totality_witness :
    createCustomRules { limitRangeErr := none, resourceQuotaErr := none }
        (RuntimeObj.otherObj "a Pod") = none ∧
    (createCustomRules { limitRangeErr := none, resourceQuotaErr := none }
        (RuntimeObj.namespaceObj nsTeamA)).isSome = true := by
  constructor
  · exact (type_assertion_totality { limitRangeErr := none, resourceQuotaErr := none }
      (RuntimeObj.otherObj "a Pod")).1 (fun ns h => RuntimeObj.noConfusion h)
  · exact (type_assertion_totality { limitRangeErr := none, resourceQuotaErr := none }
      (RuntimeObj.otherObj "a Pod")).2 nsTeamA

/-- C1 counterexample: the namespace name `my-kube-app` does not begin with
the literal `kube-` (so the claim demands both creation calls for it), yet
the handler attempts zero creation calls, because Go regexp matching is
unanchored and `my-kube-app` contains `kube-` as a substring. -/
theorem embedded_kube_dash_refutes_prefix_claim :
    ("kube-".data.isPrefixOf "my-kube-app".data) = false ∧
    MatchStringKubePattern "my-kube-app" = true ∧
    (createCustomRules { limitRangeErr := none, resourceQuotaErr := none }
        (RuntimeObj.namespaceObj
          { metadata := { name := "my-kube-app", namespace' := "",
                          labels := [], annotations := [] },
            status := { phase := "Active" } })).map HandlerOutput.calls
      = some [] := by
  decide

/-- Evaluation helper: on a namespace the handler classifies as
non-administrative, the handler returns the two creation calls and the two
outcome log lines. -/
theorem createCustomRules_nonadmin (client : ClientOutcomes) (ns : Namespace)
    (h : MatchStringKubePattern ns.Name = false) :
    createCustomRules client (RuntimeObj.namespaceObj ns) =
      some { calls := [ApiCall.createLimitRange ns.Name (limit ns.Name),
                       ApiCall.createResourceQuota ns.Name (quota ns.Name)],
             logs := [lrLog client.limitRangeErr ns.Name,
                      rqLog client.resourceQuotaErr ns.Name] } := by
  simp [createCustomRules, h]

/-- C1 amended: for every namespace whose name does not contain `kube-` as a
substring (equivalently, does not match `kube-.*` under Go unanchored
matching), the handler returns normally and its outbound call list is
exactly one LimitRange creation followed by one ResourceQuota creation,
whatever either call's outcome. -/
theorem non_admin_two_calls_in_order (client : ClientOutcomes) (ns : Namespace)
    (h : MatchStringKubePattern ns.Name = false) :
    ∃ out lr rq,
      createCustomRules client (RuntimeObj.namespaceObj ns) = some out ∧
      out.calls = [ApiCall.createLimitRange ns.Name lr,
                   ApiCall.createResourceQuota ns.Name rq] := by
  rw [createCustomRules_nonadmin client ns h]
  exact ⟨_, _, _, rfl, rfl⟩

/-- C1 witness: namespace `team-a` with a failing LimitRange call still
produces the two-call sequence. -/
theorem non_admin_two_calls_in_order_witness :
    ∃ out lr rq,
      createCustomRules { limitRangeErr := some "boom", resourceQuotaErr := none }
          (RuntimeObj.namespaceObj nsTeamA) = some out ∧
      out.calls = [ApiCall.createLimitRange nsTeamA.Name lr,
                   ApiCall.createResourceQuota nsTeamA.Name rq] :=
  non_admin_two_calls_in_order _ nsTeamA (by decide)

/-- C3: for every namespace the handler classifies as non-administrative, the
first outbound call is a LimitRange creation scoped to that namespace, whose
body is named `lr-auto-<n>`, carries namespace `<n>`, kind `LimitRange`, and
has a single container-scoped limit entry whose default memory and
default-request memory both equal 134217728 bytes, independent of the
name. -/
theorem limitRange_body_shape (client : ClientOutcomes) (ns : Namespace)
    (h : MatchStringKubePattern ns.Name = false) :
    ∃ out lr,
      createCustomRules client (RuntimeObj.namespaceObj ns) = some out ∧
      out.calls.head? = some (ApiCall.createLimitRange ns.Name lr) ∧
      lr.metadata.name = "lr-auto-" ++ ns.Name ∧
      lr.metadata.namespace' = ns.Name ∧
      lr.typeMeta = { kind := "LimitRange", apiVersion := "v1" } ∧
      lr.spec.limits =
        [{ type := "Container",
           default := [("memory",
             { value := 134217728, format := QuantityFormat.BinarySI })],
           defaultRequest := [("memory",
             { value := 134217728, format := QuantityFormat.BinarySI })] }] := by
  rw [createCustomRules_nonadmin client ns h]
  refine ⟨_, limit ns.Name, rfl, rfl, ?_, ?_, ?_, ?_⟩ <;>
    simp [limit, NewQuantity, LimitTypeContainer]

/-- C3 witness: the LimitRange body for namespace `team-a`. -/
theorem limitRange_body_shape_witness :
    ∃ out lr,
      createCustomRules { limitRangeErr := none, resourceQuotaErr := none }
          (RuntimeObj.namespaceObj nsTeamA) = some out ∧
      out.calls.head? = some (ApiCall.createLimitRange nsTeamA.Name lr) ∧
      lr.metadata.name = "lr-auto-" ++ nsTeamA.Name ∧
      lr.metadata.namespace' = nsTeamA.Name ∧
      lr.typeMeta = { kind := "LimitRange", apiVersion := "v1" } ∧
      lr.spec.limits =
        [{ type := "Container",
           default := [("memory",
             { value := 134217728, format := QuantityFormat.BinarySI })],
           defaultRequest := [("memory",
             { value := 134217728, format := QuantityFormat.BinarySI })] }] :=
  limitRange_body_shape _ nsTeamA (by decide)

/-- C4: for every namespace the handler classifies as non-administrative, the
second outbound call is a ResourceQuota creation scoped to that namespace,
whose body is named `rq-auto-<n>`, carries namespace `<n>`, kind
`ResourceQuota`, and sets the hard limits `services.loadbalancers = 0` and
`services.nodeports = 0`. -/
theorem resourceQuota_body_shape (client : ClientOutcomes) (ns : Namespace)
    (h : MatchStringKubePattern ns.Name = false) :
    ∃ out rq,
      createCustomRules client (RuntimeObj.namespaceObj ns) = some out ∧
      out.calls[1]? = some (ApiCall.createResourceQuota ns.Name rq) ∧
      rq.metadata.name = "rq-auto-" ++ ns.Name ∧
      rq.metadata.namespace' = ns.Name ∧
      rq.typeMeta = { kind := "ResourceQuota", apiVersion := "v1" } ∧
      rq.spec.hard =
        [("services.loadbalancers",
            { value := 0, format := QuantityFormat.BinarySI }),
         ("services.nodeports",
            { value := 0, format := QuantityFormat.BinarySI })] := by
  rw [createCustomRules_nonadmin client ns h]
  refine ⟨_, quota ns.Name, rfl, rfl, ?_, ?_, ?_, ?_⟩ <;>
    simp [quota, NewQuantity]

/-- C4 witness: the ResourceQuota body for namespace `team-a`. -/
theorem resourceQuota_body_shape_witness :
    ∃ out rq,
      createCustomRules { limitRangeErr := none, resourceQuotaErr := none }
          (RuntimeObj.namespaceObj nsTeamA) = some out ∧
      out.calls[1]? = some (ApiCall.createResourceQuota nsTeamA.Name rq) ∧
      rq.metadata.name = "rq-auto-" ++ nsTeamA.Name ∧
      rq.metadata.namespace' = nsTeamA.Name ∧
      rq.typeMeta = { kind := "ResourceQuota", apiVersion := "v1" } ∧
      rq.spec.hard =
        [("services.loadbalancers",
            { value := 0, format := QuantityFormat.BinarySI }),
         ("services.nodeports",
            { value := 0, format := QuantityFormat.BinarySI })] :=
  resourceQuota_body_shape _ nsTeamA (by decide)

/-- C5: the two submissions are independent: for a non-administrative
namespace, whatever error the LimitRange call returns the ResourceQuota call
is still attempted, and whatever error the ResourceQuota call returns the
LimitRange call is still attempted, within the same invocation. -/
theorem submissions_independent (ns : Namespace)
    (h : MatchStringKubePattern ns.Name = false) :
    (∀ (e : String) (rqOutcome : Option String), ∃ out rq,
        createCustomRules { limitRangeErr := some e, resourceQuotaErr := rqOutcome }
            (RuntimeObj.namespaceObj ns) = some out ∧
        ApiCall.createResourceQuota ns.Name rq ∈ out.calls) ∧
    (∀ (e : String) (lrOutcome : Option String), ∃ out lr,
        createCustomRules { limitRangeErr := lrOutcome, resourceQuotaErr := some e }
            (RuntimeObj.namespaceObj ns) = some out ∧
        ApiCall.createLimitRange ns.Name lr ∈ out.calls) := by
  constructor
  · intro e rqOutcome
    rw [createCustomRules_nonadmin _ ns h]
    exact ⟨_, _, rfl, List.mem_cons_of_mem _ (List.mem_cons_self _ _)⟩
  · intro e lrOutcome
    rw [createCustomRules_nonadmin _ ns h]
    exact ⟨_, _, rfl, List.mem_cons_self _ _⟩

/-- C5 witness: for `team-a`, a failing LimitRange call does not suppress
the ResourceQuota attempt, and a failing ResourceQuota call does not
suppress the LimitRange attempt. -/
theorem submissions_independent_witness :
    (∃ out rq,
        createCustomRules { limitRangeErr := some "boom", resourceQuotaErr := none }
            (RuntimeObj.namespaceObj nsTeamA) = some out ∧
        ApiCall.createResourceQuota nsTeamA.Name rq ∈ out.calls) ∧
    (∃ out lr,
        createCustomRules { limitRangeErr := none, resourceQuotaErr := some "bust" }
            (RuntimeObj.namespaceObj nsTeamA) = some out ∧
        ApiCall.createLimitRange nsTeamA.Name lr ∈ out.calls) :=
  ⟨(submissions_independent nsTeamA (by decide)).1 "boom" none,
   (submissions_independent nsTeamA (by decide)).2 "bust" none⟩

/-- C6 counterexample: when both creation calls fail for namespace `team-a`
(errors `boom` and `bust`), each failure log line carries the error text but
neither contains the namespace name, refuting "each submission's outcome is
logged with the namespace name". -/
theorem failure_log_lacks_namespace_name :
    (createCustomRules { limitRangeErr := some "boom", resourceQuotaErr := some "bust" }
        (RuntimeObj.namespaceObj nsTeamA)).map HandlerOutput.logs =
      some ["Failed to create limitRange: boom",
            "Failed to create ResourceQuotas: bust"] ∧
    hasSub "team-a".data "Failed to create limitRange: boom".data = false ∧
    hasSub "team-a".data "Failed to create ResourceQuotas: bust".data = false := by
  decide

/-- C6 amended: for every namespace-add event and every outcome of the two
creation calls the handler returns normally, propagating no error; for a
non-administrative namespace exactly one log line is emitted per submission:
a success line carries the namespace name, a failure line carries the
underlying error text (but not the namespace name, unless the error text
happens to contain it); for an administrative namespace the single skip line
carries the namespace name. -/
theorem outcome_logging_no_propagation (client : ClientOutcomes) (ns : Namespace) :
    (createCustomRules client (RuntimeObj.namespaceObj ns)).isSome = true ∧
    (MatchStringKubePattern ns.Name = false →
      ∃ out, createCustomRules client (RuntimeObj.namespaceObj ns) = some out ∧
        out.logs = [lrLog client.limitRangeErr ns.Name,
                    rqLog client.resourceQuotaErr ns.Name] ∧
        (∀ e, client.limitRangeErr = some e →
          lrLog client.limitRangeErr ns.Name = "Failed to create limitRange: " ++ e ∧
          hasSub e.data ("Failed to create limitRange: " ++ e).data = true) ∧
        (client.limitRangeErr = none →
          hasSub ns.Name.data (lrLog client.limitRangeErr ns.Name).data = true) ∧
        (∀ e, client.resourceQuotaErr = some e →
          rqLog client.resourceQuotaErr ns.Name = "Failed to create ResourceQuotas: " ++ e ∧
          hasSub e.data ("Failed to create ResourceQuotas: " ++ e).data = true) ∧
        (client.resourceQuotaErr = none →
          hasSub ns.Name.data (rqLog client.resourceQuotaErr ns.Name).data = true)) ∧
    (MatchStringKubePattern ns.Name = true →
      ∃ out, createCustomRules client (RuntimeObj.namespaceObj ns) = some out ∧
        out.logs = ["Skip admin namespace: " ++ ns.Name] ∧
        hasSub ns.Name.data ("Skip admin namespace: " ++ ns.Name).data = true) := by
  refine ⟨?_, ?_, ?_⟩
  · cases hM : MatchStringKubePattern ns.Name
    · rw [createCustomRules_nonadmin client ns hM]; rfl
    · simp [createCustomRules, hM]
  · intro hM
    refine ⟨_, createCustomRules_nonadmin client ns hM, rfl, ?_, ?_, ?_, ?_⟩
    · intro e he
      refine ⟨by simp [lrLog, he], ?_⟩
      rw [String.data_append]
      exact hasSub_suffix _ _
    · intro he
      simp only [lrLog, he]
      rw [String.data_append, String.data_append, List.append_assoc]
      exact hasSub_append_self _ _ _
    · intro e he
      refine ⟨by simp [rqLog, he], ?_⟩
      rw [String.data_append]
      exact hasSub_suffix _ _
    · intro he
      simp only [rqLog, he]
      rw [String.data_append, String.data_append, List.append_assoc]
      exact hasSub_append_self _ _ _
  · intro hM
    have hval : createCustomRules client (RuntimeObj.namespaceObj ns) =
        some { calls := [], logs := ["Skip admin namespace: " ++ ns.Name] } := by
      simp [createCustomRules, hM]
    refine ⟨_, hval, rfl, ?_⟩
    rw [String.data_append]
    exact hasSub_suffix _ _

/-- C6 witness: concrete instance at `team-a` with a failing LimitRange
call: the handler returns normally and emits one line per submission. -/
theorem outcome_logging_no_propagation_witness :
    (createCustomRules { limitRangeErr := some "boom", resourceQuotaErr := none }
        (RuntimeObj.namespaceObj nsTeamA)).isSome = true ∧
    ∃ out, createCustomRules { limitRangeErr := some "boom", resourceQuotaErr := none }
        (RuntimeObj.namespaceObj nsTeamA) = some out ∧ out.logs.length = 2 := by
  obtain ⟨out, hout, hlogs, -, -, -, -⟩ :=
    (outcome_logging_no_propagation
      { limitRangeErr := some "boom", resourceQuotaErr := none } nsTeamA).2.1 (by decide)
  exact ⟨(outcome_logging_no_propagation
      { limitRangeErr := some "boom", resourceQuotaErr := none } nsTeamA).1,
    out, hout, by rw [hlogs]; rfl⟩

/-- C10: the handler's behaviour is a function of the namespace name alone:
two namespace objects with equal names (labels, annotations and status may
differ) get the same classification; across arbitrary call outcomes their
outbound calls, request bodies included, coincide; and under equal outcomes
the entire output coincides. -/
theorem name_only_dependence (c1 c2 : ClientOutcomes) (a b : Namespace)
    (h : a.Name = b.Name) :
    MatchStringKubePattern a.Name = MatchStringKubePattern b.Name ∧
    (createCustomRules c1 (RuntimeObj.namespaceObj a)).map HandlerOutput.calls =
      (createCustomRules c2 (RuntimeObj.namespaceObj b)).map HandlerOutput.calls ∧
    createCustomRules c1 (RuntimeObj.namespaceObj a) =
      createCustomRules c1 (RuntimeObj.namespaceObj b) := by
  refine ⟨by rw [h], ?_, ?_⟩
  · cases hM : MatchStringKubePattern b.Name
    · have ha := hM
      rw [← h] at ha
      rw [createCustomRules_nonadmin c1 a ha, createCustomRules_nonadmin c2 b hM]
      simp [h]
    · have ha := hM
      rw [← h] at ha
      simp [createCustomRules, ha, hM, h]
  · cases hM : MatchStringKubePattern b.Name
    · have ha := hM
      rw [← h] at ha
      rw [createCustomRules_nonadmin c1 a ha, createCustomRules_nonadmin c1 b hM]
      simp [h]
    · have ha := hM
      rw [← h] at ha
      simp [createCustomRules, ha, hM, h]

/-- C10 witness: `team-a` with empty labels versus `team-a` with labels,
annotations and a different status phase: same classification, same calls
even under different outcomes, same full output under equal outcomes. -/
theorem name_only_dependence_witness :
    MatchStringKubePattern nsTeamA.Name = MatchStringKubePattern nsTeamALabeled.Name ∧
    (createCustomRules { limitRangeErr := none, resourceQuotaErr := none }
        (RuntimeObj.namespaceObj nsTeamA)).map HandlerOutput.calls =
      (createCustomRules { limitRangeErr := some "boom", resourceQuotaErr := none }
        (RuntimeObj.namespaceObj nsTeamALabeled)).map HandlerOutput.calls ∧
    createCustomRules { limitRangeErr := none, resourceQuotaErr := none }
        (RuntimeObj.namespaceObj nsTeamA) =
      createCustomRules { limitRangeErr := none, resourceQuotaErr := none }
        (RuntimeObj.namespaceObj nsTeamALabeled) :=
  name_only_dependence _ _ nsTeamA nsTeamALabeled (by decide)
